import Mathlib

/-!
Shallow embedding of `verify_tools.py`, the NeuroSploit environment auditor.

The script probes a fixed catalog of system commands, Python packages,
security-tool binaries and environment variables, classifies each probe as
`"OK"` / `"WARNING"` / `"MISSING"`, loads a `.env` settings file into the
process environment, and prints a summary.  The embedding models the process
state (search path resolution, filesystem probes, module lookup, environment)
as a `World` of abstract query functions and transcribes each Python function.
Python strings are modelled as Lean `String`s; the handful of Python `str`
methods the script uses (`strip`, `split(sep, 1)`, `startswith`, `in`) are
defined explicitly on the underlying character lists so that their behaviour
matches CPython's.
-/

/-- Python whitespace, the character class removed by `str.strip()`. -/
def pyIsSpace (c : Char) : Bool :=
  c = ' ' || c = '\t' || c = '\n' || c = '\r' || c = '\x0b' || c = '\x0c'

/-- Python `s.strip()`: remove leading and trailing whitespace. -/
def pyStrip (s : List Char) : List Char :=
  ((s.dropWhile pyIsSpace).reverse.dropWhile pyIsSpace).reverse

/-- Python `s.split(sep, 1)`: split on the first occurrence of `sep` only.
Yields one part when `sep` does not occur, two parts otherwise. -/
def split1 (sep : Char) : List Char → List (List Char)
  | [] => [[]]
  | c :: rest =>
    if c = sep then [[], rest]
    else
      match split1 sep rest with
      | [] => [[c]]
      | h :: t => (c :: h) :: t

/-- Python tuple unpacking `k, v = parts`: succeeds exactly when there are
two parts, otherwise the interpreter raises `ValueError`. -/
def unpack2 : List (List Char) → Option (List Char × List Char)
  | [k, v] => some (k, v)
  | _ => none

/-- The process environment, `os.environ` / `os.getenv`: unset variables
read as `none`. -/
abbrev Env := String → Option String

/-- The successful effect of `os.environ[k] = v`: set `k`, overwriting any
existing value. -/
def env_set (env : Env) (k v : String) : Env :=
  fun x => if x = k then some v else env x

/-- Python `os.environ[k] = v` itself.  CPython forwards the assignment to
`putenv`/`setenv`; with an empty variable name, `setenv` fails with `EINVAL`
and the assignment raises `OSError: [Errno 22] Invalid argument`, which
nothing in the script catches.  (A key produced by the script's split never
contains `=`, so the empty name is the reachable `setenv` failure.) -/
def os_environ_set (env : Env) (k v : String) : Except String Env :=
  if k = "" then .error "OSError: [Errno 22] Invalid argument"
  else .ok (env_set env k v)

/-- Python `line.startswith("#")`, applied to the raw line. -/
def py_startswith_hash (line : String) : Bool :=
  match line.data with
  | [] => false
  | c :: _ => c = '#'

/-- One iteration of the `.env` parsing loop in `main`:
`if "=" in line and not line.startswith("#"): k, v = line.strip().split("=", 1); os.environ[k] = v`.
The `Except` layer carries the exceptions the interpreter would propagate: a
failed unpack (`ValueError`) and the `OSError` that `os.environ` raises on an
empty key. -/
def process_env_line (env : Env) (line : String) : Except String Env :=
  if line.data.contains '=' && !py_startswith_hash line then
    match unpack2 (split1 '=' (pyStrip line.data)) with
    | some (k, v) => os_environ_set env (String.mk k) (String.mk v)
    | none => .error "ValueError: not enough values to unpack"
  else
    .ok env

/-- The whole `.env` parsing loop: process the file's lines in order,
threading the mutated environment. -/
def load_env (env : Env) (lines : List String) : Except String Env :=
  lines.foldlM process_env_line env

/-- Exceptions that `importlib.util.find_spec` raises on a failed lookup
(malformed or relative names, broken parent modules): exactly the classes the
script's `except (ImportError, AttributeError, ValueError)` clause lists. -/
inductive PyExc
  | importError
  | attributeError
  | valueError
deriving DecidableEq

/-- Result of `importlib.util.find_spec`: a raised exception, `None`, or a
module spec (whose contents the script never inspects). -/
abbrev FindSpec := String → Except PyExc (Option Unit)

/-- The process state the script queries: `shutil.which`, `Path.home()`,
`os.path.exists`, `os.access(_, os.X_OK)`, `importlib.util.find_spec`,
the initial `os.environ`, and the `.env` file (its lines, when it exists). -/
structure World where
  which : String → Option String
  home : String
  os_path_exists : String → Bool
  os_access_X_OK : String → Bool
  find_spec : FindSpec
  environ : Env
  env_file : Option (List String)

/-- The fixed fallback directories probed by `check_command`, joined with the
command name: `~/go/bin`, `~/.cargo/bin`, `~/.local/bin`, `~/bin`,
`/usr/local/go/bin`. -/
def common_paths (home cmd : String) : List String :=
  [ home ++ "/go/bin/" ++ cmd
  , home ++ "/.cargo/bin/" ++ cmd
  , home ++ "/.local/bin/" ++ cmd
  , home ++ "/bin/" ++ cmd
  , "/usr/local/go/bin/" ++ cmd ]

/-- `check_command`: look the command up on `PATH` via `shutil.which`; if
absent, probe the fallback directories for an existing executable file;
otherwise report missing. -/
def check_command (w : World) (cmd : String) : String × String :=
  match w.which cmd with
  | some path => ("OK", path)
  | none =>
    match (common_paths w.home cmd).find?
        (fun p => w.os_path_exists p && w.os_access_X_OK p) with
    | some p => ("WARNING", "Found at " ++ p ++ " (Not in PATH)")
    | none => ("MISSING", "Not found in PATH")

/-- `check_python_package`: dry module lookup via `find_spec` inside
`try ... except (ImportError, AttributeError, ValueError): pass`; any
non-`None` spec is OK, everything else is missing with a pip hint. -/
def check_python_package (find_spec : FindSpec) (package : String) :
    String × String :=
  match find_spec package with
  | .ok (some _) => ("OK", "")
  | .ok none => ("MISSING", "Run: pip install " ++ package)
  | .error _ => ("MISSING", "Run: pip install " ++ package)

/-- The placeholder denylist of `check_env_var`. -/
def placeholders : List String := ["your-key-here", "your-mistral-api-key"]

/-- `check_env_var`: `os.getenv`, then Python truthiness of `val` and
`val.strip()`, then the exact-match placeholder test. -/
def check_env_var (env : Env) (var : String) : String × String :=
  match env var with
  | some val =>
    if val ≠ "" ∧ pyStrip val.data ≠ [] then
      if val ∈ placeholders then ("WARNING", "Set to placeholder value")
      else ("OK", "Configured")
    else ("WARNING", "Not set (some features may fail)")
  | none => ("WARNING", "Not set (some features may fail)")

/-- The system-tool catalog of `main`. -/
def sys_tools : List String := ["git", "curl", "wget", "jq", "nmap", "go", "cargo"]

/-- The Python-package catalog of `main`. -/
def py_packages : List String :=
  [ "requests", "dnspython", "urllib3"
  , "anthropic"
  , "openai"
  , "google.generativeai"
  , "mistune"
  , "wafw00f"
  , "paramspider" ]

/-- The name-mapping step of `main`'s package loop:
`module = pkg; if pkg == "dnspython": module = "dns";
if pkg == "google.generativeai": module = "google.generativeai"`. -/
def module_of (pkg : String) : String :=
  if pkg = "dnspython" then "dns"
  else if pkg = "google.generativeai" then "google.generativeai"
  else pkg

/-- The security-tool catalog of `main`. -/
def sec_tools : List String :=
  [ "nmap", "rustscan", "naabu", "masscan"
  , "subfinder", "amass", "assetfinder", "findomain", "puredns"
  , "httpx", "nuclei", "nikto", "whatweb", "wafw00f"
  , "sqlmap", "wpscan", "feroxbuster", "gobuster", "ffuf"
  , "dirsearch", "gau", "waybackurls", "katana", "paramspider" ]

/-- The environment-variable catalog of `main`. -/
def api_keys : List String :=
  ["MISTRAL_API_KEY", "OPENAI_API_KEY", "ANTHROPIC_API_KEY", "GOOGLE_API_KEY"]

/-- The summary block at the end of `main`, as the list of lines printed. -/
def mk_summary (missing_tools : List String) : List String :=
  if missing_tools ≠ [] then
    [ "Warning: " ++ toString missing_tools.length ++ " tools are missing or not in PATH."
    , "Run usage tests to see if these are critical for your workflow."
    , "To install missing tools, run: ./install_tools.sh"
    , "If tools show as WARNING (Found at...), run: source ~/.bashrc" ]
  else
    ["All checked tools are installed!"]

/-- Everything `main` reports: one `(name, status, message)` triple per probe
in catalog order, the list of missing security tools, the `.env` probe, the
summary lines and the process exit code. -/
structure MainOut where
  sys_results : List (String × String × String)
  pkg_results : List (String × String × String)
  sec_results : List (String × String × String)
  missing_tools : List String
  envfile_result : String × String
  api_results : List (String × String × String)
  summary : List String
  exit_code : Nat
deriving DecidableEq, Inhabited

/-- The script main entry point (`main` in the source): probe the three catalogs, collect the missing
security tools, load `.env` into the environment when present, probe the
API-key variables against the resulting environment, and summarise.  The
`Except` layer carries an uncaught exception from the `.env` loop (the
unpack `ValueError` or the empty-key `OSError`), which aborts the run with a
traceback and a non-zero exit; an `.ok` result is a completed run, exit
code 0. -/
def main_run (w : World) : Except String MainOut :=
  let sys_results := sys_tools.map (fun t => (t, check_command w t))
  let pkg_results :=
    py_packages.map (fun p => (p, check_python_package w.find_spec (module_of p)))
  let sec_results := sec_tools.map (fun t => (t, check_command w t))
  let missing_tools :=
    (sec_results.filter (fun r => r.2.1 == "MISSING")).map (fun r => r.1)
  match w.env_file with
  | some lines =>
    match load_env w.environ lines with
    | .error e => .error e
    | .ok env =>
      .ok { sys_results := sys_results
          , pkg_results := pkg_results
          , sec_results := sec_results
          , missing_tools := missing_tools
          , envfile_result := ("OK", "Found")
          , api_results := api_keys.map (fun k => (k, check_env_var env k))
          , summary := mk_summary missing_tools
          , exit_code := 0 }
  | none =>
      .ok { sys_results := sys_results
          , pkg_results := pkg_results
          , sec_results := sec_results
          , missing_tools := missing_tools
          , envfile_result := ("MISSING", "Copy .env.example to .env")
          , api_results := api_keys.map (fun k => (k, check_env_var w.environ k))
          , summary := mk_summary missing_tools
          , exit_code := 0 }

/-- A concrete bare process state: nothing on `PATH`, empty filesystem, no
installed packages, empty environment, no `.env` file. -/
def w0 : World where
  which := fun _ => none
  home := "/root"
  os_path_exists := fun _ => false
  os_access_X_OK := fun _ => false
  find_spec := fun _ => .ok none
  environ := fun _ => none
  env_file := none

/-- A concrete empty environment, used to instantiate theorems. -/
def env0 : Env := fun _ => none

/-- The bare world with a `.env` file consisting of the single malformed
line `=foo`. -/
def w_bad : World := { w0 with env_file := some ["=foo"] }

/-- The completed report of the audit in the bare world. -/
def out0 : MainOut := (main_run w0).toOption.getD default

/-- A module lookup in which nothing resolves (every `find_spec` call
returns `None`). -/
def fsNone : FindSpec := fun _ => .ok none

/-- Elements that do not satisfy the predicate survive `dropWhile`. -/
theorem mem_dropWhile_of_mem {α : Type} {p : α → Bool} {a : α} :
    ∀ {l : List α}, a ∈ l → p a = false → a ∈ l.dropWhile p := by
  intro l
  induction l with
  | nil => intro h _; cases h
  | cons b rest ih =>
    intro hmem hpa
    by_cases hb : p b = true
    · have hab : a ≠ b := fun h => by rw [h, hb] at hpa; cases hpa
      have : a ∈ rest := by
        rcases List.mem_cons.mp hmem with h | h
        · exact absurd h hab
        · exact h
      simpa [List.dropWhile, hb] using ih this hpa
    · simpa [List.dropWhile, Bool.eq_false_iff.mpr hb] using hmem

/-- Non-whitespace characters survive Python `strip`. -/
theorem mem_pyStrip {c : Char} {s : List Char} (hc : pyIsSpace c = false)
    (h : c ∈ s) : c ∈ pyStrip s := by
  unfold pyStrip
  have h1 : c ∈ s.dropWhile pyIsSpace := mem_dropWhile_of_mem h hc
  have h2 : c ∈ (s.dropWhile pyIsSpace).reverse := List.mem_reverse.mpr h1
  have h3 : c ∈ (s.dropWhile pyIsSpace).reverse.dropWhile pyIsSpace :=
    mem_dropWhile_of_mem h2 hc
  exact List.mem_reverse.mpr h3

/-- When the separator occurs, `split1` yields exactly two parts: the prefix
before the first occurrence (which is separator-free) and the rest. -/
theorem split1_spec {sep : Char} :
    ∀ {l : List Char}, sep ∈ l →
      ∃ a b, split1 sep l = [a, b] ∧ a ++ sep :: b = l ∧ sep ∉ a := by
  intro l
  induction l with
  | nil => intro h; cases h
  | cons c rest ih =>
    intro hmem
    by_cases hc : c = sep
    · subst hc
      exact ⟨[], rest, by simp [split1], rfl, by simp⟩
    · have hrest : sep ∈ rest := by
        rcases List.mem_cons.mp hmem with h | h
        · exact absurd h.symm hc
        · exact h
      obtain ⟨a, b, hab, happ, hna⟩ := ih hrest
      refine ⟨c :: a, b, ?_, ?_, ?_⟩
      · simp [split1, hc, hab]
      · simp [happ]
      · intro h
        rcases List.mem_cons.mp h with h | h
        · exact hc h.symm
        · exact hna h
/-- The `.env` loop body succeeds on every line whose stripped text does not
begin with `=`.  The unpack `ValueError` branch is unreachable (a line is
only split after the `"=" in line` guard, stripping cannot remove the `=`,
and a split-on-first with a present separator yields exactly two parts), and
under the hypothesis the key handed to `os.environ` is nonempty, so the
`OSError` branch is not taken either. -/
theorem process_env_line_ok (env : Env) (line : String)
    (hk : (pyStrip line.data).head? ≠ some '=') :
    ∃ e, process_env_line env line = .ok e := by
  unfold process_env_line
  by_cases h : (line.data.contains '=' && !py_startswith_hash line) = true
  · rw [if_pos h]
    have h1 : '=' ∈ line.data := by
      have := (Bool.and_eq_true _ _).mp h |>.1
      simpa using this
    have h2 : '=' ∈ pyStrip line.data := mem_pyStrip (by decide) h1
    obtain ⟨a, b, hab, happ, -⟩ := split1_spec h2
    have ha : a ≠ [] := by
      intro h0
      subst h0
      rw [← happ] at hk
      exact hk rfl
    rw [hab]
    refine ⟨env_set env (String.mk a) (String.mk b), ?_⟩
    show os_environ_set env (String.mk a) (String.mk b) = _
    unfold os_environ_set
    rw [if_neg (fun h0 => ha (congrArg String.data h0))]
  · rw [if_neg h]
    exact ⟨env, rfl⟩

/-- The whole `.env` loop succeeds when no line has an empty key. -/
theorem load_env_ok (lines : List String) :
    (∀ line ∈ lines, (pyStrip line.data).head? ≠ some '=') →
    ∀ env, ∃ e, load_env env lines = .ok e := by
  induction lines with
  | nil =>
    intro _ env
    exact ⟨env, rfl⟩
  | cons l rest ih =>
    intro hk env
    obtain ⟨e1, he1⟩ := process_env_line_ok env l (hk l (List.mem_cons_self l rest))
    obtain ⟨e2, he2⟩ := ih (fun x hx => hk x (List.mem_cons_of_mem l hx)) e1
    refine ⟨e2, ?_⟩
    show (l :: rest).foldlM process_env_line env = .ok e2
    rw [List.foldlM_cons, he1]
    exact he2

/-- Collecting the first components of the filtered tagged results is the
same as filtering the inputs directly. -/
theorem map_filter_map_fst {α β : Type} (f : α → β) (p : β → Bool) :
    ∀ l : List α,
      ((l.map (fun a => (a, f a))).filter (fun r => p r.2)).map (fun r => r.1)
        = l.filter (fun a => p (f a)) := by
  intro l
  induction l with
  | nil => rfl
  | cons a rest ih =>
    by_cases h : p (f a) = true
    · simp [List.filter_cons, h, ih]
    · simp [List.filter_cons, h, ih]

/-- Looking a list element up in the tagged result list returns its tag. -/
theorem lookup_map_self {α : Type} [DecidableEq α] [BEq α] [LawfulBEq α]
    (f : α → String × String) :
    ∀ (l : List α) (a : α), a ∈ l →
      (l.map (fun x => (x, f x))).lookup a = some (f a) := by
  intro l
  induction l with
  | nil => intro a h; cases h
  | cons b rest ih =>
    intro a hmem
    by_cases hab : b = a
    · subst hab
      simp [List.lookup]
    · have : a ∈ rest := by
        rcases List.mem_cons.mp hmem with h | h
        · exact absurd h.symm hab
        · exact h
      have hne : (a == b) = false := beq_false_of_ne fun h => hab h.symm
      simpa [List.lookup, hne] using ih a this
/-- Characterization of a completed run: when `main_run` returns a report,
its fields are the catalog maps, the filtered missing security tools, the
summary of that list, and the API-key checks against the post-load
environment (the prior environment when there is no `.env` file, the loaded
one otherwise). -/
theorem main_run_spec (w : World) (out : MainOut)
    (hrun : main_run w = .ok out) :
    ∃ env, (w.env_file = none → env = w.environ)
      ∧ (∀ lines, w.env_file = some lines → load_env w.environ lines = .ok env)
      ∧ out.sys_results = sys_tools.map (fun t => (t, check_command w t))
      ∧ out.pkg_results =
          py_packages.map (fun p => (p, check_python_package w.find_spec (module_of p)))
      ∧ out.sec_results = sec_tools.map (fun t => (t, check_command w t))
      ∧ out.missing_tools =
          sec_tools.filter (fun t => (check_command w t).1 == "MISSING")
      ∧ out.summary =
          mk_summary (sec_tools.filter (fun t => (check_command w t).1 == "MISSING"))
      ∧ out.api_results = api_keys.map (fun k => (k, check_env_var env k))
      ∧ out.exit_code = 0 := by
  have hmt : ((sec_tools.map (fun t => (t, check_command w t))).filter
      (fun r => r.2.1 == "MISSING")).map (fun r => r.1)
      = sec_tools.filter (fun t => (check_command w t).1 == "MISSING") :=
    map_filter_map_fst (check_command w) (fun v => v.1 == "MISSING") sec_tools
  cases hef : w.env_file with
  | none =>
    have hok : main_run w = .ok
        { sys_results := sys_tools.map (fun t => (t, check_command w t))
        , pkg_results :=
            py_packages.map (fun p => (p, check_python_package w.find_spec (module_of p)))
        , sec_results := sec_tools.map (fun t => (t, check_command w t))
        , missing_tools := ((sec_tools.map (fun t => (t, check_command w t))).filter
            (fun r => r.2.1 == "MISSING")).map (fun r => r.1)
        , envfile_result := ("MISSING", "Copy .env.example to .env")
        , api_results := api_keys.map (fun k => (k, check_env_var w.environ k))
        , summary := mk_summary (((sec_tools.map (fun t => (t, check_command w t))).filter
            (fun r => r.2.1 == "MISSING")).map (fun r => r.1))
        , exit_code := 0 } := by
      simp only [main_run, hef]
    rw [hok] at hrun
    obtain rfl := Except.ok.inj hrun
    refine ⟨w.environ, fun _ => rfl, fun lines h => ?_, rfl, rfl, rfl, hmt, ?_, rfl, rfl⟩
    · cases h
    · show mk_summary _ = _
      rw [hmt]
  | some lines =>
    cases hl : load_env w.environ lines with
    | error err =>
      have hbad : main_run w = .error err := by
        simp only [main_run, hef, hl]
      rw [hbad] at hrun
      exact Except.noConfusion hrun
    | ok e =>
      have hok : main_run w = .ok
        { sys_results := sys_tools.map (fun t => (t, check_command w t))
        , pkg_results :=
            py_packages.map (fun p => (p, check_python_package w.find_spec (module_of p)))
        , sec_results := sec_tools.map (fun t => (t, check_command w t))
        , missing_tools := ((sec_tools.map (fun t => (t, check_command w t))).filter
            (fun r => r.2.1 == "MISSING")).map (fun r => r.1)
        , envfile_result := ("OK", "Found")
        , api_results := api_keys.map (fun k => (k, check_env_var e k))
        , summary := mk_summary (((sec_tools.map (fun t => (t, check_command w t))).filter
            (fun r => r.2.1 == "MISSING")).map (fun r => r.1))
        , exit_code := 0 } := by
        simp only [main_run, hef, hl]
      rw [hok] at hrun
      obtain rfl := Except.ok.inj hrun
      refine ⟨e, fun h => ?_, fun lines' h => ?_, rfl, rfl, rfl, hmt, ?_, rfl, rfl⟩
      · cases h
      · injection h with h'
        subst h'
        exact hl
      · show mk_summary _ = _
        rw [hmt]

/-- The summary is the all-clear line exactly when no security tool is
missing. -/
theorem mk_summary_eq_all_clear (m : List String) :
    mk_summary m = ["All checked tools are installed!"] ↔ m = [] := by
  constructor
  · intro h
    by_contra hm
    rw [mk_summary, if_pos hm] at h
    exact absurd (congrArg List.length h) (by simp)
  · intro h
    subst h
    rfl

/-- The first summary line for a non-empty missing list reports its length. -/
theorem mk_summary_head (m : List String) (hm : m ≠ []) :
    (mk_summary m).head? =
      some ("Warning: " ++ toString m.length ++ " tools are missing or not in PATH.") := by
  rw [mk_summary, if_pos hm]
  rfl

/-- A world that has `rustscan` installed in the cargo fallback directory
but nothing on the search path. -/
def w_cargo : World :=
  { w0 with
    os_path_exists := fun p => p == "/root/.cargo/bin/rustscan"
  , os_access_X_OK := fun p => p == "/root/.cargo/bin/rustscan" }

/-- C1: `check_command` classifies every command name in exactly one of three
ways: a `shutil.which` hit reports `OK` with that exact resolved path;
otherwise an existing executable file of that name in one of the five fixed
fallback directories (`~/go/bin`, `~/.cargo/bin`, `~/.local/bin`, `~/bin`,
`/usr/local/go/bin`) reports `WARNING` — never `MISSING` — with a message
naming the found path; otherwise it reports `MISSING`. -/
theorem c1_check_command_classification (w : World) (cmd : String) :
    common_paths w.home cmd =
      [ w.home ++ "/go/bin/" ++ cmd, w.home ++ "/.cargo/bin/" ++ cmd
      , w.home ++ "/.local/bin/" ++ cmd, w.home ++ "/bin/" ++ cmd
      , "/usr/local/go/bin/" ++ cmd ]
  ∧ (∀ p, w.which cmd = some p → check_command w cmd = ("OK", p))
  ∧ (w.which cmd = none →
      ∀ q ∈ common_paths w.home cmd,
        (w.os_path_exists q && w.os_access_X_OK q) = true →
        ∃ p ∈ common_paths w.home cmd,
          (w.os_path_exists p && w.os_access_X_OK p) = true ∧
          check_command w cmd = ("WARNING", "Found at " ++ p ++ " (Not in PATH)"))
  ∧ (w.which cmd = none →
      (∀ p ∈ common_paths w.home cmd,
        ¬ ((w.os_path_exists p && w.os_access_X_OK p) = true)) →
      check_command w cmd = ("MISSING", "Not found in PATH")) := by
  refine ⟨rfl, ?_, ?_, ?_⟩
  · intro p hp
    simp [check_command, hp]
  · intro hn q hq hpred
    cases hfind : (common_paths w.home cmd).find?
        (fun p => w.os_path_exists p && w.os_access_X_OK p) with
    | some p =>
      have hp' := List.find?_some hfind
      have hp : (w.os_path_exists p && w.os_access_X_OK p) = true := by
        simpa using hp'
      have hm : p ∈ common_paths w.home cmd := List.mem_of_find?_eq_some hfind
      exact ⟨p, hm, hp, by simp [check_command, hn, hfind]⟩
    | none =>
      exact absurd hpred (by simpa using List.find?_eq_none.mp hfind q hq)
  · intro hn hall
    cases hfind : (common_paths w.home cmd).find?
        (fun p => w.os_path_exists p && w.os_access_X_OK p) with
    | some p =>
      have hp' := List.find?_some hfind
      have hp : (w.os_path_exists p && w.os_access_X_OK p) = true := by
        simpa using hp'
      have hm : p ∈ common_paths w.home cmd := List.mem_of_find?_eq_some hfind
      exact absurd hp (hall p hm)
    | none =>
      simp [check_command, hn, hfind]

/-- Witness for C1: in `w_cargo`, the command `rustscan` is off the search
path but executable under `~/.cargo/bin`, and is reported `WARNING` with the
found path. -/
theorem c1_witness :
    ∃ p ∈ common_paths w_cargo.home "rustscan",
      (w_cargo.os_path_exists p && w_cargo.os_access_X_OK p) = true ∧
      check_command w_cargo "rustscan" =
        ("WARNING", "Found at " ++ p ++ " (Not in PATH)") :=
  (c1_check_command_classification w_cargo "rustscan").2.2.1 rfl
    "/root/.cargo/bin/rustscan" (by decide) (by decide)
/-- An environment in which the Mistral key was left at its example value. -/
def envPlaceholder : Env :=
  fun v => if v = "MISTRAL_API_KEY" then some "your-mistral-api-key" else none

/-- C2: `check_env_var` reports `WARNING` when the variable is unset, empty or
whitespace-only, `WARNING` when the value equals one of the placeholder
sentinels, `OK`/`Configured` in every other case, and never `MISSING`. -/
theorem c2_check_env_var_classification (env : Env) (var : String) :
    (check_env_var env var).1 ≠ "MISSING"
  ∧ (env var = none →
      check_env_var env var = ("WARNING", "Not set (some features may fail)"))
  ∧ (∀ v, env var = some v → pyStrip v.data = [] →
      check_env_var env var = ("WARNING", "Not set (some features may fail)"))
  ∧ (∀ v, env var = some v → v ∈ placeholders →
      check_env_var env var = ("WARNING", "Set to placeholder value"))
  ∧ (∀ v, env var = some v → pyStrip v.data ≠ [] → v ∉ placeholders →
      check_env_var env var = ("OK", "Configured")) := by
  refine ⟨?_, ?_, ?_, ?_, ?_⟩
  · cases h : env var with
    | none => simp [check_env_var, h]
    | some v =>
      simp only [check_env_var, h]
      split
      · split
        · decide
        · decide
      · decide
  · intro h
    simp [check_env_var, h]
  · intro v hv hstrip
    simp only [check_env_var, hv]
    rw [if_neg (fun hc => hc.2 hstrip)]
  · intro v hv hmem
    simp only [check_env_var, hv]
    have hmem' := hmem
    simp only [placeholders, List.mem_cons, List.not_mem_nil, or_false] at hmem'
    have h1 : v ≠ "" ∧ pyStrip v.data ≠ [] := by
      rcases hmem' with rfl | rfl
      · exact ⟨by decide, by decide⟩
      · exact ⟨by decide, by decide⟩
    rw [if_pos h1, if_pos hmem]
  · intro v hv hstrip hmem
    have hv' : v ≠ "" := by
      intro h
      subst h
      exact hstrip rfl
    simp only [check_env_var, hv]
    rw [if_pos ⟨hv', hstrip⟩, if_neg hmem]

/-- Witness for C2: a variable left at the placeholder `your-mistral-api-key`
is reported as a placeholder `WARNING`. -/
theorem c2_witness :
    check_env_var envPlaceholder "MISTRAL_API_KEY" =
      ("WARNING", "Set to placeholder value") :=
  (c2_check_env_var_classification envPlaceholder "MISTRAL_API_KEY").2.2.2.1
    "your-mistral-api-key" rfl (by decide)

/-- C3 counterexample: the assignment line `=foo` passes the `"=" in line`
guard, splits into the empty key and the value `foo`, and the injection
`os.environ[""] = "foo"` raises an uncaught `OSError` — so this malformed
line does make the run fail. -/
theorem c3_counterexample :
    process_env_line env0 "=foo" =
      .error "OSError: [Errno 22] Invalid argument" := rfl

/-- C3 amended: the settings-file parser splits an assignment line on the
first `=` only (`KEY=value with=equals` maps `KEY` to `value with=equals`),
skips lines starting with `#` even when they contain `=`, skips lines
without `=`, and every line whose stripped text does not begin with `=`
is processed without failure, splitting into exactly a key (free of `=`)
and a value; only an assignment line with an empty key (stripped text
beginning with `=`) makes the loop body raise. -/
theorem c3_settings_file_parsing (env : Env) :
    process_env_line env "KEY=value with=equals"
        = .ok (env_set env "KEY" "value with=equals")
  ∧ process_env_line env "#DISABLED=1" = .ok env
  ∧ process_env_line env "plain line" = .ok env
  ∧ (∀ line, (pyStrip line.data).head? ≠ some '=' →
      ∃ e, process_env_line env line = .ok e)
  ∧ (∀ line, line.data.contains '=' = true → py_startswith_hash line = false →
      (pyStrip line.data).head? ≠ some '=' →
      ∃ k v : List Char,
        process_env_line env line = .ok (env_set env (String.mk k) (String.mk v))
          ∧ k ++ '=' :: v = pyStrip line.data ∧ '=' ∉ k) := by
  refine ⟨rfl, rfl, rfl, process_env_line_ok env, ?_⟩
  intro line hc hs hk
  have h1 : '=' ∈ line.data := by simpa using hc
  obtain ⟨a, b, hab, happ, hna⟩ := split1_spec (mem_pyStrip (by decide) h1)
  have ha : a ≠ [] := by
    intro h0
    subst h0
    rw [← happ] at hk
    exact hk rfl
  refine ⟨a, b, ?_, happ, hna⟩
  unfold process_env_line
  rw [if_pos (by rw [hc, hs]; rfl), hab]
  show os_environ_set env (String.mk a) (String.mk b) = _
  unfold os_environ_set
  rw [if_neg (fun h0 => ha (congrArg String.data h0))]

/-- Witness for C3: the general splitting clause applied to `A=B=C`. -/
theorem c3_witness :
    ∃ k v : List Char,
      process_env_line env0 "A=B=C" = .ok (env_set env0 (String.mk k) (String.mk v))
        ∧ k ++ '=' :: v = pyStrip "A=B=C".data ∧ '=' ∉ k :=
  (c3_settings_file_parsing env0).2.2.2.2 "A=B=C" (by decide) (by decide) (by decide)

/-- C4 counterexample: the loader does not strip the key and value
individually — after processing `KEY = value`, the environment has no entry
for `KEY`; the entry is under `KEY ` (trailing space) with value ` value`
(leading space). -/
theorem c4_counterexample :
    (process_env_line env0 "KEY = value").map (fun e => (e "KEY", e "KEY ")) =
      .ok ((none : Option String), some " value") := rfl

/-- C4 amended: only the line as a whole is stripped of surrounding
whitespace before the split on the first `=`; the key keeps whitespace
adjacent to the `=` sign, so `KEY = value` injects key `KEY ` with value
` value`, while surrounding whitespace of the whole line (such as the
trailing newline) is removed. -/
theorem c4_amended_whole_line_strip (env : Env) :
    process_env_line env "KEY = value" = .ok (env_set env "KEY " " value")
  ∧ env_set env "KEY " " value" "KEY " = some " value"
  ∧ process_env_line env "  KEY=value  " = .ok (env_set env "KEY" "value") := by
  refine ⟨rfl, ?_, rfl⟩
  simp [env_set]

/-- A module lookup that always raises `ValueError`. -/
def fsErr : FindSpec := fun _ => .error .valueError

/-- C5: `check_python_package` never propagates a lookup failure: it always
returns a classification, and a raised `ImportError`/`AttributeError`/
`ValueError` yields exactly the `MISSING` result of a `None` lookup. -/
theorem c5_package_resolver_total (fs : FindSpec) (package : String) :
    ((check_python_package fs package).1 = "OK"
      ∨ (check_python_package fs package).1 = "MISSING")
  ∧ (∀ e, fs package = .error e →
      check_python_package fs package = ("MISSING", "Run: pip install " ++ package)
        ∧ check_python_package fs package = check_python_package fsNone package) := by
  constructor
  · cases h : fs package with
    | ok o =>
      cases o with
      | some u => left; simp [check_python_package, h]
      | none => right; simp [check_python_package, h]
    | error e => right; simp [check_python_package, h]
  · intro e he
    constructor
    · simp [check_python_package, he]
    · simp [check_python_package, he, fsNone]

/-- Witness for C5: a lookup raising `ValueError` is downgraded to the same
`MISSING` result as a failed lookup. -/
theorem c5_witness :
    check_python_package fsErr "dns" = ("MISSING", "Run: pip install dns")
      ∧ check_python_package fsErr "dns" = check_python_package fsNone "dns" :=
  (c5_package_resolver_total fsErr "dns").2 .valueError rfl
/-- C6: the final summary of a completed run is a function of the
security-tool probe results alone: it is the all-clear line exactly when no
security tool is `MISSING`; when some are, its first line reports the exact
count of `MISSING` security tools; and any two process states agreeing on the
security-tool probes (while differing arbitrarily on system tools, packages,
environment and `.env`) produce the same summary. -/
theorem c6_summary_depends_only_on_sec_tools (w : World) (out : MainOut)
    (hrun : main_run w = .ok out) :
    (out.summary = ["All checked tools are installed!"]
      ↔ ∀ t ∈ sec_tools, (check_command w t).1 ≠ "MISSING")
  ∧ ((∃ t ∈ sec_tools, (check_command w t).1 = "MISSING") →
      out.summary.head? = some
        ("Warning: "
          ++ toString (sec_tools.filter (fun t => (check_command w t).1 == "MISSING")).length
          ++ " tools are missing or not in PATH."))
  ∧ (∀ (w' : World) (out' : MainOut), main_run w' = .ok out' →
      (∀ t ∈ sec_tools, check_command w t = check_command w' t) →
      out'.summary = out.summary) := by
  obtain ⟨env, -, -, -, -, -, -, hsum, -, -⟩ := main_run_spec w out hrun
  refine ⟨?_, ?_, ?_⟩
  · rw [hsum]
    rw [mk_summary_eq_all_clear, List.filter_eq_nil_iff]
    simp [beq_iff_eq]
  · rintro ⟨t, ht, hmiss⟩
    have hne : sec_tools.filter (fun t => (check_command w t).1 == "MISSING") ≠ [] := by
      have : t ∈ sec_tools.filter (fun t => (check_command w t).1 == "MISSING") :=
        List.mem_filter.mpr ⟨ht, by simp [hmiss]⟩
      exact List.ne_nil_of_mem this
    rw [hsum, mk_summary_head _ hne]
  · intro w' out' hrun' hagree
    obtain ⟨env', -, -, -, -, -, -, hsum', -, -⟩ := main_run_spec w' out' hrun'
    have hfilter : sec_tools.filter (fun t => (check_command w t).1 == "MISSING")
        = sec_tools.filter (fun t => (check_command w' t).1 == "MISSING") :=
      List.filter_congr (fun t ht => by rw [hagree t ht])
    rw [hsum, hsum', hfilter]

/-- Witness for C6: in the bare world every security tool is missing, and
the summary's first line reports the count (all 24 of them). -/
theorem c6_witness :
    out0.summary.head? = some
      ("Warning: "
        ++ toString (sec_tools.filter (fun t => (check_command w0 t).1 == "MISSING")).length
        ++ " tools are missing or not in PATH.") :=
  (c6_summary_depends_only_on_sec_tools w0 out0 rfl).2.1
    ⟨"nmap", by decide, by decide⟩

/-- C7: the `.env` loader runs before the variable checks and its injections
overwrite the prior environment: in every completed run whose settings file
ends with the line `ANTHROPIC_API_KEY=sk-real123`, the subsequent check of
`ANTHROPIC_API_KEY` reports `OK`/`Configured`, whatever the initial
environment held. -/
theorem c7_loader_feeds_variable_checks (w : World) (pre : List String)
    (out : MainOut)
    (h : w.env_file = some (pre ++ ["ANTHROPIC_API_KEY=sk-real123"]))
    (hrun : main_run w = .ok out) :
    out.api_results.lookup "ANTHROPIC_API_KEY" = some ("OK", "Configured") := by
  obtain ⟨env, -, hsome, -, -, -, -, -, hapi, -⟩ := main_run_spec w out hrun
  have hload := hsome _ h
  have hsplit : load_env w.environ (pre ++ ["ANTHROPIC_API_KEY=sk-real123"])
      = load_env w.environ pre >>=
          fun b => load_env b ["ANTHROPIC_API_KEY=sk-real123"] := by
    show (pre ++ _).foldlM process_env_line w.environ = _
    rw [List.foldlM_append]
    rfl
  rw [hsplit] at hload
  cases hl : load_env w.environ pre with
  | error err =>
    rw [hl] at hload
    exact Except.noConfusion hload
  | ok e1 =>
    rw [hl] at hload
    have h2 : Except.ok (env_set e1 "ANTHROPIC_API_KEY" "sk-real123")
        = Except.ok env := hload
    have henv : env = env_set e1 "ANTHROPIC_API_KEY" "sk-real123" :=
      (Except.ok.inj h2).symm
    rw [hapi, henv]
    rfl

/-- A world whose prior environment holds a placeholder for every variable
but whose `.env` file sets the Anthropic key to a real value. -/
def w_env : World :=
  { w0 with
    environ := fun _ => some "your-key-here"
  , env_file := some ["ANTHROPIC_API_KEY=sk-real123"] }

/-- The completed report of the audit in the world `w_env`. -/
def out_env : MainOut := (main_run w_env).toOption.getD default

/-- Witness for C7: loading `ANTHROPIC_API_KEY=sk-real123` overwrites the
placeholder that was in the environment, and the check reports Configured. -/
theorem c7_witness :
    out_env.api_results.lookup "ANTHROPIC_API_KEY" = some ("OK", "Configured") :=
  c7_loader_feeds_variable_checks w_env [] out_env rfl rfl
/-- C8 counterexample: in a run where nothing resolves, the `MISSING` detail
for the catalog entry `dnspython` is the install command for the mapped
module name `dns`, not for the declared package name `dnspython`. -/
theorem c8_counterexample :
    (main_run w0).map (fun o => o.pkg_results.lookup "dnspython") =
      .ok (some ("MISSING", "Run: pip install dns"))
  ∧ "Run: pip install dns" ≠ "Run: pip install dnspython" := ⟨rfl, by decide⟩

/-- C8 amended: in every completed run, for every catalog package that is
not resolvable, the reported `MISSING` detail is an install command
referencing the mapped module name used for resolution (`dns` for the entry
`dnspython`), which coincides with the declared name only for unmapped
entries. -/
theorem c8_amended_hint_names_module (w : World) (pkg : String)
    (out : MainOut) (hrun : main_run w = .ok out)
    (hmem : pkg ∈ py_packages)
    (hfail : ∀ u, w.find_spec (module_of pkg) ≠ .ok (some u)) :
    out.pkg_results.lookup pkg =
      some ("MISSING", "Run: pip install " ++ module_of pkg) := by
  obtain ⟨env, -, -, -, hpkg, -, -, -, -, -⟩ := main_run_spec w out hrun
  rw [hpkg,
    lookup_map_self (fun p => check_python_package w.find_spec (module_of p))
      py_packages pkg hmem]
  have hmiss : check_python_package w.find_spec (module_of pkg)
      = ("MISSING", "Run: pip install " ++ module_of pkg) := by
    cases hfs : w.find_spec (module_of pkg) with
    | ok o =>
      cases o with
      | some u => exact absurd hfs (hfail u)
      | none => simp [check_python_package, hfs]
    | error e => simp [check_python_package, hfs]
  rw [hmiss]

/-- Witness for C8 (amended): the unresolvable `dnspython` entry in the bare
world gets the hint for the module name `dns`. -/
theorem c8_witness :
    out0.pkg_results.lookup "dnspython" =
      some ("MISSING", "Run: pip install " ++ module_of "dnspython") :=
  c8_amended_hint_names_module w0 "dnspython" out0 rfl (by decide)
    (fun u h => Option.noConfusion (Except.ok.inj h))

/-- C9 counterexample: with a `.env` file containing the single line `=foo`,
the run does not complete — the injection `os.environ[""] = "foo"` raises an
uncaught `OSError` and the interpreter aborts with a traceback and a
non-zero exit, contradicting the claim for this filesystem state. -/
theorem c9_counterexample :
    main_run w_bad = .error "OSError: [Errno 22] Invalid argument" := rfl

/-- C9 amended: on every process state whose settings file, when present,
contains no assignment line with an empty key (no line whose stripped text
begins with `=`), the audit runs to completion with exit code 0: missing
tools, unresolvable packages, unset variables, an absent settings file or
any other malformed settings line are all reported, never raised. -/
theorem c9_amended_exit_zero (w : World)
    (h : ∀ lines, w.env_file = some lines →
          ∀ line ∈ lines, (pyStrip line.data).head? ≠ some '=') :
    ∃ out, main_run w = .ok out ∧ out.exit_code = 0 := by
  cases hef : w.env_file with
  | none =>
    have hok : main_run w = .ok
        { sys_results := sys_tools.map (fun t => (t, check_command w t))
        , pkg_results :=
            py_packages.map (fun p => (p, check_python_package w.find_spec (module_of p)))
        , sec_results := sec_tools.map (fun t => (t, check_command w t))
        , missing_tools := ((sec_tools.map (fun t => (t, check_command w t))).filter
            (fun r => r.2.1 == "MISSING")).map (fun r => r.1)
        , envfile_result := ("MISSING", "Copy .env.example to .env")
        , api_results := api_keys.map (fun k => (k, check_env_var w.environ k))
        , summary := mk_summary (((sec_tools.map (fun t => (t, check_command w t))).filter
            (fun r => r.2.1 == "MISSING")).map (fun r => r.1))
        , exit_code := 0 } := by
      simp only [main_run, hef]
    exact ⟨_, hok, rfl⟩
  | some lines =>
    obtain ⟨e, he⟩ := load_env_ok lines (h lines hef) w.environ
    have hok : main_run w = .ok
        { sys_results := sys_tools.map (fun t => (t, check_command w t))
        , pkg_results :=
            py_packages.map (fun p => (p, check_python_package w.find_spec (module_of p)))
        , sec_results := sec_tools.map (fun t => (t, check_command w t))
        , missing_tools := ((sec_tools.map (fun t => (t, check_command w t))).filter
            (fun r => r.2.1 == "MISSING")).map (fun r => r.1)
        , envfile_result := ("OK", "Found")
        , api_results := api_keys.map (fun k => (k, check_env_var e k))
        , summary := mk_summary (((sec_tools.map (fun t => (t, check_command w t))).filter
            (fun r => r.2.1 == "MISSING")).map (fun r => r.1))
        , exit_code := 0 } := by
      simp only [main_run, hef, he]
    exact ⟨_, hok, rfl⟩

/-- Witness for C9 (amended): the bare world (no `.env` file at all)
completes with exit code 0. -/
theorem c9_witness : ∃ out, main_run w0 = .ok out ∧ out.exit_code = 0 :=
  c9_amended_exit_zero w0 (fun _ h => nomatch h)

/-- C10: the comment test uses the raw, unstripped line, so a line whose
first character is whitespace and whose first non-whitespace character is `#`
is not skipped: when it contains `=`, it is parsed as an assignment and the
environment gains a key whose text begins with the `#` marker. -/
theorem c10_indented_comment_is_parsed (env : Env) (line : String) (c : Char)
    (h1 : line.data.head? = some c) (h2 : pyIsSpace c = true)
    (h3 : (pyStrip line.data).head? = some '#')
    (h4 : line.data.contains '=' = true) :
    ∃ k v : String, process_env_line env line = .ok (env_set env k v)
      ∧ k.data.head? = some '#' ∧ env_set env k v k = some v := by
  have hmemeq : '=' ∈ line.data := by simpa using h4
  have hc : c ≠ '#' := by
    intro h
    rw [h] at h2
    exact absurd h2 (by decide)
  have hhash : py_startswith_hash line = false := by
    cases hd : line.data with
    | nil =>
      rw [hd] at h1
      cases h1
    | cons c0 rest =>
      rw [hd] at h1
      have hc0 : c0 = c := by injection h1
      unfold py_startswith_hash
      rw [hd]
      simp [hc0, hc]
  have hstrip : ∃ s, pyStrip line.data = '#' :: s := by
    cases hp : pyStrip line.data with
    | nil =>
      rw [hp] at h3
      cases h3
    | cons c0 s =>
      rw [hp] at h3
      have : c0 = '#' := by injection h3
      exact ⟨s, by rw [this]⟩
  obtain ⟨s, hs⟩ := hstrip
  have hmem2 : '=' ∈ pyStrip line.data := mem_pyStrip (by decide) hmemeq
  rw [hs] at hmem2
  have hmem3 : '=' ∈ s := by
    rcases List.mem_cons.mp hmem2 with h | h
    · exact absurd h (by decide)
    · exact h
  obtain ⟨a, b, hab, -, -⟩ := split1_spec hmem3
  have hsplit : split1 '=' (pyStrip line.data) = [('#' :: a), b] := by
    rw [hs]
    simp [split1, hab]
  refine ⟨String.mk ('#' :: a), String.mk b, ?_, rfl, ?_⟩
  · unfold process_env_line
    rw [if_pos (by rw [h4, hhash]; rfl), hsplit]
    rfl
  · simp [env_set]

/-- Witness for C10: the line with a leading space ` #SECRET=1` really is
parsed, and injects a key starting with `#`. -/
theorem c10_witness :
    ∃ k v : String, process_env_line env0 " #SECRET=1" = .ok (env_set env0 k v)
      ∧ k.data.head? = some '#' ∧ env_set env0 k v k = some v :=
  c10_indented_comment_is_parsed env0 " #SECRET=1" ' ' rfl (by decide)
    (by decide) (by decide)
